import Mathlib

/-!
Shallow embedding of the person CRUD service (`src/main.py`).

The service is a Flask application with a marshmallow `PersonaSchema` used
both to validate request bodies and to serialize records, and a SQLAlchemy
model `Persona` persisted in the `personas` table.  Here the table is a
`List Persona` (the `id` column is the primary key), dates are ordinal day
numbers (`Nat`), and each route handler becomes a pure function from the
request data and the current table to a `Response` and the new table.

The marshmallow schema is instantiated once (`persona_schema = PersonaSchema()`),
and the expression `date.today()` in the `fecha_nacimiento` field declaration
is evaluated exactly once, when the class body runs at process start.  The
embedding therefore threads that frozen date as an explicit parameter
`today0` through the validation functions: nothing in the code re-reads the
clock at validation time.
-/

/-- A row of the `personas` table (`class Persona(db.Model)` in `src/main.py`).
`id` is the integer primary key; `edad` and `fecha_nacimiento` are nullable
columns; `es_activo` defaults to `True`. Dates are ordinal day numbers. -/
structure Persona where
  id : Nat
  nombre : String
  apellido : String
  categoria : String
  edad : Option Int
  correo_electronico : String
  url : String
  fecha_nacimiento : Option Nat
  es_activo : Bool
deriving DecidableEq, Repr

/-- The stored table: the rows of `personas`. -/
abbrev Store := List Persona

/-- An inbound JSON body as seen by `persona_schema.load`: each schema field
is either absent from the mapping or present with a (type-coerced) value. -/
structure PersonaInput where
  nombre : Option String := none
  apellido : Option String := none
  categoria : Option String := none
  edad : Option Int := none
  correo_electronico : Option String := none
  url : Option String := none
  fecha_nacimiento : Option Nat := none
deriving DecidableEq, Repr

/-- A partial-update body whose only present key is `categoria`
(e.g. the JSON body `{"categoria": c}`). -/
def PersonaInput.soloCategoria (c : String) : PersonaInput :=
  { categoria := some c }

/-! ### The `nombre` regular expression

`validate.Regexp(r'^[A-Z][a-z]+(?: [A-Z][a-z]+)*$')` is checked with Python
`re.match` semantics: the match is anchored at the start of the string, and
`$` matches at the end of the string or just before a trailing newline. -/

/-- `[A-Z]` — Python character classes here are ASCII-only. -/
def isUpperAscii (c : Char) : Bool := 'A' ≤ c && c ≤ 'Z'

/-- `[a-z]`. -/
def isLowerAscii (c : Char) : Bool := 'a' ≤ c && c ≤ 'z'

/-- Drop a (possibly empty) maximal run of `[a-z]` characters.  After `[a-z]+`
the pattern continues with a space or the anchor, neither of which is a
lowercase letter, so the greedy run coincides with the backtracking regex. -/
def dropLowers : List Char → List Char
  | c :: cs => if isLowerAscii c then dropLowers cs else c :: cs
  | [] => []

/-- Match `[A-Z][a-z]+(?: [A-Z][a-z]+)*` against the whole list, with `$`
allowed to stop just before one trailing newline (Python `$` semantics).
`fuel` bounds the recursion; each round consumes at least two characters. -/
def matchNombreAux : Nat → List Char → Bool
  | 0, _ => false
  | Nat.succ fuel, c :: d :: cs =>
    if isUpperAscii c && isLowerAscii d then
      match dropLowers cs with
      | [] => true
      | ['\n'] => true
      | ' ' :: cs2 => matchNombreAux fuel cs2
      | _ => false
    else false
  | Nat.succ _, _ => false

/-- Python `re.match` of `^[A-Z][a-z]+(?: [A-Z][a-z]+)*$` succeeding on the
whole string. -/
def matchNombre (s : String) : Bool :=
  matchNombreAux (s.data.length + 1) s.data

/-! ### Field validators

Each marshmallow field carries a list of validators; `marshmallow` runs every
validator in the list and collects all of their error messages, so each
function below returns the concatenated list of messages of the failing
validators (empty list = field valid). -/

/-- `nombre`: `validate.Regexp(...)` then `validate.Length(min=3)`, both
always evaluated. -/
def nombreErrors (s : String) : List String :=
  (if matchNombre s then [] else
    ["El apellido debe iniciar con mayúscula y contener solo letras."]) ++
  (if 3 ≤ s.length then [] else
    ["El apellido debe tener al menos 3 caracteres."])

/-- The fixed category set of `validate.OneOf(["A","B","C","D","E","F"])`. -/
def categorias : List String := ["A", "B", "C", "D", "E", "F"]

/-- `categoria`: membership in the fixed set, case-sensitive, with the
marshmallow `OneOf` default message. -/
def categoriaErrors (c : String) : List String :=
  if c ∈ categorias then [] else ["Must be one of: A, B, C, D, E, F."]

/-- `edad`: two separate `Range` validators, `Range(min=18)` and
`Range(max=50)`, each with its own message; both are evaluated. -/
def edadErrors (a : Int) : List String :=
  (if a < 18 then ["Debe ser mayor de edad"] else []) ++
  (if 50 < a then ["No debe ser una persona mayor de edad"] else [])

/-- Split a character list at every occurrence of `sep` (the pieces never
contain `sep`; `n` separators yield `n + 1` pieces). -/
def splitOnChar (sep : Char) : List Char → List (List Char)
  | [] => [[]]
  | c :: cs =>
    if c = sep then [] :: splitOnChar sep cs
    else
      match splitOnChar sep cs with
      | w :: ws => (c :: w) :: ws
      | [] => [[c]]

/-- Modelled from the spec: `correo_electronico` is `fields.Email`, a purely
syntactic check by a library validator whose code is not under `src/`; the
spec only requires "valid email syntax".  Modelled as: exactly one `@`,
nonempty local part, and a domain containing a dot with nonempty labels. -/
def emailOk (s : String) : Bool :=
  match splitOnChar '@' s.data with
  | [l, d] =>
      !l.isEmpty && !d.isEmpty && d.contains '.' &&
        (splitOnChar '.' d).all (!·.isEmpty)
  | _ => false

/-- `correo_electronico` errors, with the marshmallow default message. -/
def emailErrors (s : String) : List String :=
  if emailOk s then [] else ["Not a valid email address."]

/-- Whether the second list starts with the first one. -/
def leadsWith : List Char → List Char → Bool
  | [], _ => true
  | _ :: _, [] => false
  | c :: cs, d :: ds => c == d && leadsWith cs ds

/-- Modelled from the spec: `url` is `fields.URL`, a purely syntactic check by
a library validator whose code is not under `src/`; the spec only requires
"valid URL syntax".  Modelled as: an `http://` or `https://` scheme followed
by a nonempty remainder. -/
def urlOk (s : String) : Bool :=
  (leadsWith "http://".data s.data && 7 < s.length) ||
  (leadsWith "https://".data s.data && 8 < s.length)

/-- `url` errors, with the marshmallow default message. -/
def urlErrors (s : String) : List String :=
  if urlOk s then [] else ["Not a valid URL."]

/-- `fecha_nacimiento`: `validate.Range(max=date.today())`, where `today0` is
the date frozen when the schema class body ran at process start.  The input
is rejected exactly when it is strictly greater than that frozen date. -/
def fechaErrors (today0 : Nat) (d : Nat) : List String :=
  if today0 < d then ["La fecha de nacimiento no puede ser futura"] else []

/-! ### Schema load -/

/-- The schema's load fields, in declaration order (`id` is `dump_only` and
never loaded; `es_activo` is commented out of the schema). -/
def campos : List String :=
  ["nombre", "apellido", "categoria", "edad", "correo_electronico", "url",
   "fecha_nacimiento"]

/-- Whether field `f` is `required=True` in the schema but absent from the
input. `edad` and `fecha_nacimiento` are `required=False`. -/
def requiredMissing (inp : PersonaInput) : String → Bool
  | "nombre" => inp.nombre.isNone
  | "apellido" => inp.apellido.isNone
  | "categoria" => inp.categoria.isNone
  | "correo_electronico" => inp.correo_electronico.isNone
  | "url" => inp.url.isNone
  | _ => false

/-- Validator errors of field `f` when it is present in the input (absent
fields produce no validator errors). `apellido` has no validators. -/
def presentErrors (today0 : Nat) (inp : PersonaInput) : String → List String
  | "nombre" => match inp.nombre with | some v => nombreErrors v | none => []
  | "categoria" => match inp.categoria with | some v => categoriaErrors v | none => []
  | "edad" => match inp.edad with | some v => edadErrors v | none => []
  | "correo_electronico" =>
      match inp.correo_electronico with | some v => emailErrors v | none => []
  | "url" => match inp.url with | some v => urlErrors v | none => []
  | "fecha_nacimiento" =>
      match inp.fecha_nacimiento with | some v => fechaErrors today0 v | none => []
  | _ => []

/-- All error messages of field `f` under a full (non-partial) load: a missing
required field reports the marshmallow missing-data message, a present field
reports its validator errors. -/
def campoErrorsCreate (today0 : Nat) (inp : PersonaInput) (f : String) : List String :=
  if requiredMissing inp f then ["Missing data for required field."]
  else presentErrors today0 inp f

/-- The field-to-messages error mapping of `persona_schema.load(body)`:
every field with at least one failure appears, with all of its messages. -/
def createErrors (today0 : Nat) (inp : PersonaInput) : List (String × List String) :=
  campos.filterMap fun f =>
    let es := campoErrorsCreate today0 inp f
    if es = [] then none else some (f, es)

/-- `persona_schema.load(request.json)`: either the validated data or a
`ValidationError` carrying the field-to-messages mapping. -/
def loadCreate (today0 : Nat) (inp : PersonaInput) :
    Except (List (String × List String)) PersonaInput :=
  if createErrors today0 inp = [] then .ok inp
  else .error (createErrors today0 inp)

/-- The error mapping of `persona_schema.load(body, partial=True)`:
required-ness is relaxed, only present fields are validated. -/
def partialErrors (today0 : Nat) (inp : PersonaInput) : List (String × List String) :=
  campos.filterMap fun f =>
    let es := presentErrors today0 inp f
    if es = [] then none else some (f, es)

/-- `persona_schema.load(request.json, partial=True)`. -/
def loadPartial (today0 : Nat) (inp : PersonaInput) :
    Except (List (String × List String)) PersonaInput :=
  if partialErrors today0 inp = [] then .ok inp
  else .error (partialErrors today0 inp)

/-! ### Route handlers -/

/-- The possible responses of the person routes, with their bodies. -/
inductive Response where
  /-- 201 with the serialized created record. -/
  | created (p : Persona)
  /-- 200 with one serialized record. -/
  | ok (p : Persona)
  /-- 200 with a serialized list of records. -/
  | okList (ps : List Persona)
  /-- A bare `{"message": ...}` dict returned without an explicit status:
  Flask sends it with the default status 200. -/
  | okMessage (msg : String)
  /-- 400 with the `ValidationError` field-to-messages mapping. -/
  | badRequest (errors : List (String × List String))
  /-- 404 produced by `get_or_404` through the blueprint's 404 handler. -/
  | notFound (msg : String)
  /-- 204 with an empty body. -/
  | noContent
deriving DecidableEq, Repr

/-- The HTTP status code of each response. -/
def Response.status : Response → Nat
  | .created _ => 201
  | .ok _ => 200
  | .okList _ => 200
  | .okMessage _ => 200
  | .badRequest _ => 400
  | .notFound _ => 404
  | .noContent => 204

/-- The body of the blueprint's 404 error handler (`page_not_found`). -/
def notFoundMessage : String := "Persona no encontrada"

/-- The next autoincrement primary key assigned by the database on insert. -/
def nextId (s : Store) : Nat := s.foldr (fun p m => max p.id m) 0 + 1

/-- `Persona(**data)` followed by the insert: the validated fields become the
row's columns, the database assigns the id, and `es_activo` takes its column
default `True`.  (After a successful full load every required field is
present, so the `getD` defaults are never reached.) -/
def mkPersona (newId : Nat) (d : PersonaInput) : Persona :=
  { id := newId
    nombre := d.nombre.getD ""
    apellido := d.apellido.getD ""
    categoria := d.categoria.getD ""
    edad := d.edad
    correo_electronico := d.correo_electronico.getD ""
    url := d.url.getD ""
    fecha_nacimiento := d.fecha_nacimiento
    es_activo := true }

/-- `POST /persons` (`create_person`): validate the body; on a
`ValidationError` answer 400 with `e.messages` and leave the table alone;
otherwise insert the new row and answer 201. -/
def create_person (today0 : Nat) (body : PersonaInput) (s : Store) :
    Response × Store :=
  match loadCreate today0 body with
  | .error m => (.badRequest m, s)
  | .ok d =>
      let p := mkPersona (nextId s) d
      (.created p, s ++ [p])

/-- The query-string values a filter can carry (after the datastore coerces
them to the column's type). -/
inductive Valor where
  | s (v : String)
  | i (v : Int)
  | b (v : Bool)
deriving DecidableEq, Repr

/-- The columns of the `personas` table; `filter_by` accepts exactly these
names as keyword arguments. -/
def knownColumn (f : String) : Bool :=
  f ∈ ["id", "nombre", "apellido", "categoria", "edad", "correo_electronico",
       "url", "fecha_nacimiento", "es_activo"]

/-- SQL equality of column `f` of row `p` against a filter value.  A `NULL`
column (absent `edad`/`fecha_nacimiento`) compares unequal to every value. -/
def colEq (p : Persona) (f : String) (v : Valor) : Bool :=
  match f with
  | "id" => v == .i p.id
  | "nombre" => v == .s p.nombre
  | "apellido" => v == .s p.apellido
  | "categoria" => v == .s p.categoria
  | "edad" => match p.edad with | some a => v == .i a | none => false
  | "correo_electronico" => v == .s p.correo_electronico
  | "url" => v == .s p.url
  | "fecha_nacimiento" =>
      match p.fecha_nacimiento with | some d => v == .i d | none => false
  | "es_activo" => v == .b p.es_activo
  | _ => false

/-- The message of the `InvalidRequestError` SQLAlchemy raises when
`filter_by` receives an unknown column name (`str(e)` in the handler). -/
def invalidRequestMessage (f : String) : String :=
  "Entity namespace for \"personas\" has no property \"" ++ f ++ "\""

/-- `GET /persons` (`get_all_persons`): `filter_by(**request.args)` raises
`InvalidRequestError` on the first unknown column name, which the handler
turns into a message dict returned without a status code (Flask default 200);
otherwise it answers 200 with every row matching all the equalities. -/
def get_all_persons (args : List (String × Valor)) (s : Store) : Response :=
  match args.find? (fun kv => !knownColumn kv.1) with
  | some kv => .okMessage (invalidRequestMessage kv.1)
  | none => .okList (s.filter fun p => args.all fun kv => colEq p kv.1 kv.2)

/-- The `setattr` loop of `update_person`: overwrite exactly the columns whose
keys are present in the validated partial data. -/
def applyUpdate (p : Persona) (d : PersonaInput) : Persona :=
  { p with
    nombre := d.nombre.getD p.nombre
    apellido := d.apellido.getD p.apellido
    categoria := d.categoria.getD p.categoria
    edad := match d.edad with | some a => some a | none => p.edad
    correo_electronico := d.correo_electronico.getD p.correo_electronico
    url := d.url.getD p.url
    fecha_nacimiento :=
      match d.fecha_nacimiento with | some f => some f | none => p.fecha_nacimiento }

/-- `PUT /persons/<id>` (`update_person`): validate the body first (partial
load); on a `ValidationError` answer 400 and leave the table alone; then look
the row up by primary key — `get_or_404` aborts with 404 before any mutation
when it is absent; otherwise overwrite the supplied columns and commit. -/
def update_person (today0 : Nat) (id : Nat) (body : PersonaInput) (s : Store) :
    Response × Store :=
  match loadPartial today0 body with
  | .error m => (.badRequest m, s)
  | .ok d =>
      match s.find? (fun p => p.id == id) with
      | none => (.notFound notFoundMessage, s)
      | some p =>
          let p' := applyUpdate p d
          (.ok p', s.map fun q => if q.id == id then applyUpdate q d else q)

/-- `DELETE /persons/<id>` (`delete_person`): `get_or_404` answers 404 when no
row has the id; otherwise the row is deleted permanently and the answer is an
empty 204. -/
def delete_person (id : Nat) (s : Store) : Response × Store :=
  match s.find? (fun p => p.id == id) with
  | none => (.notFound notFoundMessage, s)
  | some _ => (.noContent, s.filter fun p => p.id != id)

/-! ### Concrete fixtures used by the witness theorems -/

/-- A fully valid creation body (the scenario body of the spec). -/
def inputAna : PersonaInput :=
  { nombre := some "Ana Garcia", apellido := some "Garcia", categoria := some "A",
    correo_electronico := some "ana@x.com", url := some "http://x.com" }

/-- A creation body with several invalid fields at once. -/
def inputBad : PersonaInput :=
  { nombre := some "john", categoria := some "Z" }

/-- The error mapping produced by a full load of `inputBad`. -/
def inputBadErrors : List (String × List String) :=
  [("nombre", ["El apellido debe iniciar con mayúscula y contener solo letras."]),
   ("apellido", ["Missing data for required field."]),
   ("categoria", ["Must be one of: A, B, C, D, E, F."]),
   ("correo_electronico", ["Missing data for required field."]),
   ("url", ["Missing data for required field."])]

/-- A stored row with primary key 1. -/
def anaRow : Persona :=
  { id := 1, nombre := "Ana Garcia", apellido := "Garcia", categoria := "A",
    edad := some 34, correo_electronico := "ana@x.com", url := "http://x.com",
    fecha_nacimiento := none, es_activo := true }

/-- A stored row with primary key 2. -/
def luisRow : Persona :=
  { id := 2, nombre := "Luis", apellido := "Diaz", categoria := "B",
    edad := some 40, correo_electronico := "luis@x.com", url := "http://y.com",
    fecha_nacimiento := some 100, es_activo := true }

/-! ### Claims -/

/-- C1: the `date_of_birth` upper bound is NOT re-evaluated per validation
call.  `date.today()` in the schema class body runs once at process start,
so validation compares against that frozen date `today0` and nothing else:
a date passes iff it is at most `today0`.  Concretely, with the process
started on day 0, a request on day 1 whose date of birth is day 1 — equal to
the current date at validation time, hence not in the future — is rejected
with the future-date message, contradicting the claim (and the code's own
error message). -/
theorem C1_today_frozen_at_process_start :
    (∀ today0 d : Nat, fechaErrors today0 d = [] ↔ d ≤ today0)
    ∧ fechaErrors 0 1 = ["La fecha de nacimiento no puede ser futura"]
    ∧ create_person 0 { inputAna with fecha_nacimiento := some 1 } [] =
        (.badRequest [("fecha_nacimiento",
            ["La fecha de nacimiento no puede ser futura"])], []) := by
  refine ⟨fun t d => ?_, by decide, by decide⟩
  unfold fechaErrors
  constructor
  · intro he
    by_cases h : t < d
    · simp [h] at he
    · omega
  · intro hle
    have h : ¬ t < d := by omega
    simp [h]

/-- C3: an integer age is accepted exactly when `18 ≤ age ≤ 50`; 17 and 51
are rejected, each by its own range check with its own distinct message,
while 18 and 50 are accepted; and the `edad` field of a creation input is
validated by exactly these checks. -/
theorem C3_edad_inclusive_bounds :
    (∀ a : Int, edadErrors a = [] ↔ 18 ≤ a ∧ a ≤ 50)
    ∧ edadErrors 17 = ["Debe ser mayor de edad"]
    ∧ edadErrors 51 = ["No debe ser una persona mayor de edad"]
    ∧ edadErrors 18 = [] ∧ edadErrors 50 = []
    ∧ ("Debe ser mayor de edad" : String) ≠ "No debe ser una persona mayor de edad"
    ∧ ∀ (t : Nat) (inp : PersonaInput) (a : Int), inp.edad = some a →
        campoErrorsCreate t inp "edad" = edadErrors a := by
  refine ⟨fun a => ?_, by decide, by decide, by decide, by decide, by decide,
    fun t inp a h => ?_⟩
  · unfold edadErrors
    constructor
    · intro he
      by_cases h1 : a < 18
      · simp [h1] at he
      · by_cases h2 : 50 < a
        · simp [h1, h2] at he
        · omega
    · rintro ⟨hl, hr⟩
      have h1 : ¬ a < 18 := by omega
      have h2 : ¬ 50 < a := by omega
      simp [h1, h2]
  · simp [campoErrorsCreate, requiredMissing, presentErrors, h]

/-- C4: a first name is accepted exactly when it matches the anchored pattern
`^[A-Z][a-z]+(?: [A-Z][a-z]+)*$` AND has length at least 3 — both checks are
applied; in particular "john" fails the regex check and "John Smith" is
accepted, and the two-letter "Jo" passes the regex but fails the length
check, showing the length check is applied in addition to the regex. -/
theorem C4_nombre_regex_and_length :
    (∀ s : String, nombreErrors s = [] ↔ matchNombre s = true ∧ 3 ≤ s.length)
    ∧ nombreErrors "john" =
        ["El apellido debe iniciar con mayúscula y contener solo letras."]
    ∧ nombreErrors "John Smith" = []
    ∧ matchNombre "Jo" = true
    ∧ nombreErrors "Jo" = ["El apellido debe tener al menos 3 caracteres."]
    ∧ ∀ (t : Nat) (inp : PersonaInput) (v : String), inp.nombre = some v →
        campoErrorsCreate t inp "nombre" = nombreErrors v := by
  refine ⟨fun s => ?_, by decide, by decide, by decide, by decide,
    fun t inp v h => ?_⟩
  · unfold nombreErrors
    by_cases h1 : matchNombre s <;> by_cases h2 : 3 ≤ s.length <;> simp [h1, h2]
  · simp [campoErrorsCreate, requiredMissing, presentErrors, h]

/-- C2: when a full load reports any error, `create_person` answers 400 with
the whole field-to-messages mapping and leaves the table untouched; the
mapping contains every invalid field with all of its messages, not only the
first one. -/
theorem C2_invalid_create_rejected_wholly (today0 : Nat) (body : PersonaInput)
    (s : Store) (m : List (String × List String))
    (h : loadCreate today0 body = .error m) :
    create_person today0 body s = (.badRequest m, s)
    ∧ (create_person today0 body s).1.status = 400
    ∧ ∀ f ∈ campos, campoErrorsCreate today0 body f ≠ [] →
        (f, campoErrorsCreate today0 body f) ∈ m := by
  have hm : m = createErrors today0 body := by
    unfold loadCreate at h
    split at h
    · exact Except.noConfusion h
    · exact (Except.error.inj h).symm
  have h1 : create_person today0 body s = (.badRequest m, s) := by
    unfold create_person
    rw [h]
  refine ⟨h1, by rw [h1]; rfl, fun f hf hne => ?_⟩
  subst hm
  unfold createErrors
  exact List.mem_filterMap.mpr ⟨f, hf, by simp [hne]⟩

/-- C2 witness: a body whose `nombre` and `categoria` are invalid and whose
`apellido`, `correo_electronico` and `url` are missing is rejected with all
five fields reported, and the table is unchanged. -/
theorem C2_witness :
    create_person 0 inputBad [anaRow] = (.badRequest inputBadErrors, [anaRow])
    ∧ (create_person 0 inputBad [anaRow]).1.status = 400
    ∧ ∀ f ∈ campos, campoErrorsCreate 0 inputBad f ≠ [] →
        (f, campoErrorsCreate 0 inputBad f) ∈ inputBadErrors :=
  C2_invalid_create_rejected_wholly 0 inputBad [anaRow] inputBadErrors rfl

/-- C10: `update_person` validates the body before the record lookup, so a
body that fails validation is answered 400 with the error mapping for every
store and every id — whether or not the id exists — and the table is left
untouched. -/
theorem C10_update_validates_before_lookup (today0 id : Nat)
    (body : PersonaInput) (s : Store) (m : List (String × List String))
    (h : loadPartial today0 body = .error m) :
    update_person today0 id body s = (.badRequest m, s)
    ∧ (update_person today0 id body s).1.status = 400 := by
  have h1 : update_person today0 id body s = (.badRequest m, s) := by
    unfold update_person
    rw [h]
  exact ⟨h1, by rw [h1]; rfl⟩

/-- C10 witness: a malformed body (unknown category "Z") sent to the
nonexistent id 99 of an empty table yields 400, not 404. -/
theorem C10_witness :
    update_person 0 99 (PersonaInput.soloCategoria "Z") [] =
      (.badRequest [("categoria", ["Must be one of: A, B, C, D, E, F."])], [])
    ∧ (update_person 0 99 (PersonaInput.soloCategoria "Z") []).1.status = 400 :=
  C10_update_validates_before_lookup 0 99 (PersonaInput.soloCategoria "Z") []
    [("categoria", ["Must be one of: A, B, C, D, E, F."])] rfl

/-- C7: an update with a valid body aimed at an id no row carries fails with
the 404 response and performs no mutation: the table after the call is the
table before it. -/
theorem C7_update_missing_id_no_mutation (today0 id : Nat)
    (body d : PersonaInput) (s : Store)
    (hv : loadPartial today0 body = .ok d)
    (hid : ∀ p ∈ s, p.id ≠ id) :
    update_person today0 id body s = (.notFound notFoundMessage, s) := by
  unfold update_person
  rw [hv]
  have hf : s.find? (fun p => p.id == id) = none :=
    List.find?_eq_none.mpr fun p hp => by simpa using hid p hp
  rw [hf]

/-- C7 witness: a valid category update aimed at the absent id 7 of a
one-row table answers 404 and leaves the row alone. -/
theorem C7_witness :
    update_person 0 7 (PersonaInput.soloCategoria "B") [anaRow] =
      (.notFound notFoundMessage, [anaRow]) :=
  C7_update_missing_id_no_mutation 0 7 (PersonaInput.soloCategoria "B")
    (PersonaInput.soloCategoria "B") [anaRow] rfl (by decide)

/-- C5: updating with a body whose only key is a valid `categoria` rewrites
exactly the `categoria` column of the row carrying the target id — every
other column of that row, and every other row, is unchanged (and when no row
carries the id, the table is unchanged, the map being the identity then). -/
theorem C5_update_category_frame (today0 id : Nat) (c : String) (s : Store)
    (hc : c ∈ categorias) :
    (update_person today0 id (PersonaInput.soloCategoria c) s).2 =
      s.map fun q => if q.id = id then { q with categoria := c } else q := by
  have h2 : partialErrors today0 (PersonaInput.soloCategoria c) = [] := by
    simp [partialErrors, campos, presentErrors, PersonaInput.soloCategoria,
      categoriaErrors, hc]
  have hload : loadPartial today0 (PersonaInput.soloCategoria c) =
      .ok (PersonaInput.soloCategoria c) := by
    unfold loadPartial
    rw [h2]
    rfl
  unfold update_person
  rw [hload]
  cases hfind : s.find? (fun p => p.id == id) with
  | none =>
      have : ∀ q ∈ s, (if q.id = id then { q with categoria := c } else q) = q := by
        intro q hq
        have hne := List.find?_eq_none.mp hfind q hq
        simp only [beq_iff_eq] at hne
        simp [hne]
      exact ((List.map_congr_left this).trans (List.map_id s)).symm
  | some p =>
      simp only []
      apply List.map_congr_left
      intro q _
      by_cases h : q.id = id
      · rw [if_pos (beq_iff_eq.mpr h), if_pos h]
        rfl
      · simp [h]

/-- C5 witness: setting category "B" on id 1 of a two-row table rewrites only
that row's category. -/
theorem C5_witness :
    (update_person 0 1 (PersonaInput.soloCategoria "B") [anaRow, luisRow]).2 =
      [anaRow, luisRow].map fun q =>
        if q.id = 1 then { q with categoria := "B" } else q :=
  C5_update_category_frame 0 1 "B" [anaRow, luisRow] (by decide)

/-- C6: deleting an id no row carries answers 404 with the fixed not-found
message and changes nothing; and after a successful delete of an id (which
answers 204), a second delete of the same id answers that same 404, not
success. -/
theorem C6_delete_not_idempotent_success (id : Nat) (s : Store) :
    ((∀ p ∈ s, p.id ≠ id) → delete_person id s = (.notFound notFoundMessage, s))
    ∧ ∀ p ∈ s, p.id = id →
        (delete_person id s).1 = .noContent
        ∧ delete_person id (delete_person id s).2 =
            (.notFound notFoundMessage, (delete_person id s).2) := by
  constructor
  · intro hno
    have hf : s.find? (fun p => p.id == id) = none :=
      List.find?_eq_none.mpr fun p hp => by simpa using hno p hp
    unfold delete_person
    rw [hf]
  · intro p hp hid
    have hs : (s.find? (fun q => q.id == id)).isSome :=
      List.find?_isSome.mpr ⟨p, hp, by simp [hid]⟩
    obtain ⟨q, hq⟩ := Option.isSome_iff_exists.mp hs
    have h1 : delete_person id s = (.noContent, s.filter fun r => r.id != id) := by
      unfold delete_person
      rw [hq]
    have hf2 : (s.filter fun r => r.id != id).find? (fun r => r.id == id) = none := by
      refine List.find?_eq_none.mpr fun r hr => ?_
      have := (List.mem_filter.mp hr).2
      simpa using this
    refine ⟨by rw [h1], ?_⟩
    rw [h1]
    unfold delete_person
    rw [hf2]

/-- C6 witness: on the one-row table `[anaRow]` (primary key 1), deleting the
absent id 9 answers 404 unchanged; deleting id 1 answers 204 and a second
delete of id 1 answers 404. -/
theorem C6_witness :
    delete_person 9 [anaRow] = (.notFound notFoundMessage, [anaRow])
    ∧ (delete_person 1 [anaRow]).1 = .noContent
    ∧ delete_person 1 (delete_person 1 [anaRow]).2 =
        (.notFound notFoundMessage, (delete_person 1 [anaRow]).2) :=
  ⟨(C6_delete_not_idempotent_success 9 [anaRow]).1 (by decide),
   ((C6_delete_not_idempotent_success 1 [anaRow]).2 anaRow (by decide) rfl).1,
   ((C6_delete_not_idempotent_success 1 [anaRow]).2 anaRow (by decide) rfl).2⟩

/-- C8: when every filter key is a known column, the list route answers the
rows satisfying every supplied equality — a row is in the answer iff it is
stored and matches each key — and the empty filter answers the whole table. -/
theorem C8_filter_equality_conjunction (args : List (String × Valor)) (s : Store)
    (h : ∀ kv ∈ args, knownColumn kv.1 = true) :
    (∃ ps, get_all_persons args s = .okList ps
      ∧ ∀ p, p ∈ ps ↔ p ∈ s ∧ ∀ kv ∈ args, colEq p kv.1 kv.2 = true)
    ∧ get_all_persons [] s = .okList s := by
  constructor
  · have hf : args.find? (fun kv => !knownColumn kv.1) = none :=
      List.find?_eq_none.mpr fun kv hkv => by simp [h kv hkv]
    refine ⟨s.filter fun p => args.all fun kv => colEq p kv.1 kv.2, ?_, ?_⟩
    · unfold get_all_persons
      rw [hf]
    · intro p
      rw [List.mem_filter]
      simp [List.all_eq_true]
  · unfold get_all_persons
    simp [List.filter_true]

/-- C8 witness: filtering `[anaRow, luisRow]` by `edad = 34` keeps exactly the
matching rows, and the empty filter answers the whole table. -/
theorem C8_witness :
    (∃ ps, get_all_persons [("edad", Valor.i 34)] [anaRow, luisRow] = .okList ps
      ∧ ∀ p, p ∈ ps ↔ p ∈ [anaRow, luisRow] ∧
          ∀ kv ∈ [("edad", Valor.i 34)], colEq p kv.1 kv.2 = true)
    ∧ get_all_persons [] [anaRow, luisRow] = .okList [anaRow, luisRow] :=
  C8_filter_equality_conjunction [("edad", Valor.i 34)] [anaRow, luisRow]
    (by decide)

/-- C9: a filter containing an unknown field name is answered with a message
body carried by HTTP status 200 — not a 4xx — and no record list is
returned. -/
theorem C9_unknown_filter_answers_200 (args : List (String × Valor)) (s : Store)
    (kv : String × Valor) (hmem : kv ∈ args) (hunk : knownColumn kv.1 = false) :
    (get_all_persons args s).status = 200
    ∧ (∃ msg, get_all_persons args s = .okMessage msg)
    ∧ ∀ ps, get_all_persons args s ≠ .okList ps := by
  have hs : (args.find? (fun kv => !knownColumn kv.1)).isSome :=
    List.find?_isSome.mpr ⟨kv, hmem, by simp [hunk]⟩
  obtain ⟨q, hq⟩ := Option.isSome_iff_exists.mp hs
  unfold get_all_persons
  rw [hq]
  exact ⟨rfl, ⟨_, rfl⟩, fun ps hps => Response.noConfusion hps⟩

/-- C9 witness: filtering by the unknown field "foo" answers status 200 with
a message body and no record list. -/
theorem C9_witness :
    (get_all_persons [("foo", Valor.s "x")] [anaRow]).status = 200
    ∧ (∃ msg, get_all_persons [("foo", Valor.s "x")] [anaRow] = .okMessage msg)
    ∧ ∀ ps, get_all_persons [("foo", Valor.s "x")] [anaRow] ≠ .okList ps :=
  C9_unknown_filter_answers_200 [("foo", Valor.s "x")] [anaRow]
    ("foo", Valor.s "x") (by decide) (by decide)

/-- C3 witness: the `edad` field of a body carrying age 17 is validated by
exactly the two range checks. -/
theorem C3_witness :
    campoErrorsCreate 0 { edad := some 17 } "edad" = edadErrors 17 :=
  C3_edad_inclusive_bounds.2.2.2.2.2.2 0 { edad := some 17 } 17 rfl

/-- C4 witness: the `nombre` field of a body carrying "john" is validated by
exactly the regex-plus-length checks. -/
theorem C4_witness :
    campoErrorsCreate 0 { nombre := some "john" } "nombre" = nombreErrors "john" :=
  C4_nombre_regex_and_length.2.2.2.2.2 0 { nombre := some "john" } "john" rfl
